import Mathlib

/-!
# Verification of the openiboot trunk USB descriptor/lifecycle core (usb.c)

A shallow embedding of `src/trunk/openiboot/usb.c`.  Pure descriptor-building
helpers become Lean functions on explicit state; the C globals
(`deviceDescriptor`, `configurations`, the string table, the endpoint handler
table, the `usb_inited` guard) become fields of explicit state records.
Machine integers are modelled as `Nat` with explicit `% 2^w` where the C type
forces truncation (`uint8_t` counters and return values, `uint16_t` lengths).
C `NULL` pointers become `Option` values.

Constants and type declarations that live in headers not present under
`src/` (usb.h, hardware/usb.h) are modelled from the spec and marked as such
in their doc comments; their exact numeric values do not decide any claim.
-/

/-- Modelled from the spec: the `USBDirection` enumeration from the missing
`usb.h` header.  The code masks `direction & 0x1` into bit 7 of
`bEndpointAddress`, where the USB convention is IN = 1, so OUT = 0, IN = 1,
and the third (bidirectional) value is 2. -/
def USBOut : Nat := 0

/-- Modelled from the spec: `USBIn = 1` (see `USBOut`). -/
def USBIn : Nat := 1

/-- Modelled from the spec: `USBBiDir = 2` (see `USBOut`). -/
def USBBiDir : Nat := 2

/-- Modelled from the spec: standard USB descriptor-type codes (the spec
requires byte layouts "matching the standard USB descriptor binary formats"). -/
def USBDeviceDescriptorType : Nat := 1

/-- Modelled from the spec: standard USB configuration descriptor type code. -/
def USBConfigurationDescriptorType : Nat := 2

/-- Modelled from the spec: standard USB string descriptor type code. -/
def USBStringDescriptorType : Nat := 3

/-- Modelled from the spec: standard USB interface descriptor type code. -/
def USBInterfaceDescriptorType : Nat := 4

/-- Modelled from the spec: standard USB endpoint descriptor type code. -/
def USBEndpointDescriptorType : Nat := 5

/-- Modelled from the spec: `sizeof(USBDeviceDescriptor)` — the standard USB
device descriptor is 18 bytes. -/
def sizeofUSBDeviceDescriptor : Nat := 18

/-- Modelled from the spec: `sizeof(USBConfigurationDescriptor)` — the
standard USB configuration descriptor is 9 bytes. -/
def sizeofUSBConfigurationDescriptor : Nat := 9

/-- Modelled from the spec: `sizeof(USBInterfaceDescriptor)` — the standard
USB interface descriptor is 9 bytes. -/
def sizeofUSBInterfaceDescriptor : Nat := 9

/-- Modelled from the spec: `sizeof(USBEndpointDescriptor)` — the standard
USB endpoint descriptor is 7 bytes. -/
def sizeofUSBEndpointDescriptor : Nat := 7

/-- Modelled from the spec: `sizeof(USBStringDescriptor)` — the two-byte
header (`bLength`, `bDescriptorType`) of a string descriptor with a flexible
text array. -/
def sizeofUSBStringDescriptor : Nat := 2

/-- Modelled from the spec: the "English (US)" USB language ID
(`USB_LANGID_ENGLISH_US` in the missing header; standard value 0x0409). -/
def USB_LANGID_ENGLISH_US : Nat := 0x0409

/-- Modelled from the spec: negotiated-speed identifiers from the missing
hardware header (`USB_HIGHSPEED` etc.).  Only their distinctness matters. -/
def USB_HIGHSPEED : Nat := 0

/-- Modelled from the spec: full-speed identifier (see `USB_HIGHSPEED`). -/
def USB_FULLSPEED : Nat := 1

/-- Modelled from the spec: low-speed identifier (see `USB_HIGHSPEED`). -/
def USB_LOWSPEED : Nat := 2

/-- Modelled from the spec: 48 MHz full-speed identifier (see `USB_HIGHSPEED`). -/
def USB_FULLSPEED_48_MHZ : Nat := 3

/-- Modelled from the spec: fixed device identity constants from the missing
headers (`USB_2_0`, `USB_MAX_PACKETSIZE`, `VENDOR_APPLE`, `PRODUCT_IPHONE`,
`DEVICE_IPHONE`).  Their values decide no claim; the rebuild-identity claim
only needs them to be fixed. -/
def USB_2_0 : Nat := 0x0200

/-- Modelled from the spec: maximum control packet size constant. -/
def USB_MAX_PACKETSIZE : Nat := 64

/-- Modelled from the spec: Apple vendor ID. -/
def VENDOR_APPLE : Nat := 0x05ac

/-- Modelled from the spec: iPhone product ID. -/
def PRODUCT_IPHONE : Nat := 0x1280

/-- Modelled from the spec: iPhone device release code. -/
def DEVICE_IPHONE : Nat := 0x1103

/-- Modelled from the spec: vendor-specific interface class triple for the
bootloader-mode interface (missing header constants). -/
def OPENIBOOT_INTERFACE_CLASS : Nat := 0xff

/-- Modelled from the spec: bootloader interface subclass. -/
def OPENIBOOT_INTERFACE_SUBCLASS : Nat := 0xff

/-- Modelled from the spec: bootloader interface protocol. -/
def OPENIBOOT_INTERFACE_PROTOCOL : Nat := 0x51

/-- Modelled from the spec: `USBTransferType` bulk value (standard USB
endpoint attribute encoding: control 0, isochronous 1, bulk 2, interrupt 3). -/
def USBBulk : Nat := 2

/-- Modelled from the spec: `USBSynchronisationType` value for no
synchronisation (standard encoding 0). -/
def USBNoSynchronization : Nat := 0

/-- Modelled from the spec: `USBUsageType` value for a data endpoint
(standard encoding 0). -/
def USBDataEndpoint : Nat := 0

/-- `USBEndpointDescriptor` from usb.h: the per-endpoint descriptor record
filled in by `addEndpointDescriptor`. -/
structure USBEndpointDescriptor where
  bLength : Nat
  bDescriptorType : Nat
  bEndpointAddress : Nat
  bmAttributes : Nat
  wMaxPacketSize : Nat
  bInterval : Nat
deriving DecidableEq, Inhabited

/-- `USBInterfaceDescriptor` from usb.h. -/
structure USBInterfaceDescriptor where
  bLength : Nat
  bDescriptorType : Nat
  bInterfaceNumber : Nat
  bAlternateSetting : Nat
  bNumEndpoints : Nat
  bInterfaceClass : Nat
  bInterfaceSubClass : Nat
  bInterfaceProtocol : Nat
  iInterface : Nat
deriving DecidableEq, Inhabited

/-- `USBInterface` from usb.h: an interface descriptor plus its owned
endpoint descriptor array (`NULL` is modelled as `none`). -/
structure USBInterface where
  descriptor : USBInterfaceDescriptor
  endpointDescriptors : List USBEndpointDescriptor
deriving DecidableEq, Inhabited

/-- `USBConfigurationDescriptor` from usb.h. -/
structure USBConfigurationDescriptor where
  bLength : Nat
  bDescriptorType : Nat
  wTotalLength : Nat
  bNumInterfaces : Nat
  bConfigurationValue : Nat
  iConfiguration : Nat
  bmAttributes : Nat
  bMaxPower : Nat
deriving DecidableEq, Inhabited

/-- `USBConfiguration` from usb.h: a configuration descriptor plus its owned
interface array.  `addConfiguration` in the C code never writes the
`interfaces` pointer of a fresh slot; every reader of the field assumes it is
`NULL` for a freshly added configuration, and the model takes that reading
(`none`). -/
structure USBConfiguration where
  descriptor : USBConfigurationDescriptor
  interfaces : Option (List USBInterface)
deriving DecidableEq, Inhabited

/-- `USBDeviceDescriptor` from usb.h: the global singleton filled in by
`usb_get_device_descriptor`. -/
structure USBDeviceDescriptor where
  bLength : Nat
  bDescriptorType : Nat
  bcdUSB : Nat
  bDeviceClass : Nat
  bDeviceSubClass : Nat
  bDeviceProtocol : Nat
  bMaxPacketSize : Nat
  idVendor : Nat
  idProduct : Nat
  bcdDevice : Nat
  iManufacturer : Nat
  iProduct : Nat
  iSerialNumber : Nat
  bNumConfigurations : Nat
deriving DecidableEq, Inhabited

/-- `USBStringDescriptor` from usb.h: two-byte header plus the copied text. -/
structure USBStringDescriptor where
  bLength : Nat
  bDescriptorType : Nat
  bString : String
deriving DecidableEq, Inhabited

/-- `USBFirstStringDescriptor` from usb.h: the synthesized language-ID
descriptor.  `addStringDescriptor` only ever writes the `wLANGID` array; the
`bLength` and `bDescriptorType` header bytes are never assigned anywhere in
usb.c, so they stay as the allocator left them — modelled as `Option` fields
that remain `none` (uninitialized). -/
structure USBFirstStringDescriptor where
  bLength : Option Nat
  bDescriptorType : Option Nat
  wLANGID : List Nat
deriving DecidableEq, Inhabited

/-- The descriptor-registry half of the C file's global state:
`deviceDescriptor`, `numStringDescriptors`, `stringDescriptors`,
`firstStringDescriptor` and `configurations` (the last three are pointers;
`none` models `NULL`). -/
structure DescriptorState where
  deviceDescriptor : USBDeviceDescriptor
  numStringDescriptors : Nat
  stringDescriptors : Option (List USBStringDescriptor)
  firstStringDescriptor : Option USBFirstStringDescriptor
  configurations : Option (List USBConfiguration)
deriving DecidableEq, Inhabited

/-- The zero-initialized static storage the C globals start in: the
device-descriptor struct is all zero bytes and every pointer is `NULL`. -/
def emptyDescriptorState : DescriptorState :=
  { deviceDescriptor := ⟨0, 0, 0, 0, 0, 0, 0, 0, 0, 0, 0, 0, 0, 0⟩
    numStringDescriptors := 0
    stringDescriptors := none
    firstStringDescriptor := none
    configurations := none }

/-- `initializeDescriptors` (usb.c lines 235-239): resets the string count,
the string array pointer and the configurations pointer.  It touches neither
the device descriptor nor `firstStringDescriptor`. -/
def initializeDescriptors (s : DescriptorState) : DescriptorState :=
  { s with numStringDescriptors := 0
           stringDescriptors := none
           configurations := none }

/-- `addStringDescriptor` (usb.c lines 323-339): appends one interned string
and one English (US) language ID, returning the 1-based index.
`numStringDescriptors` and the returned index are `uint8_t`, hence `% 256`;
`bLength` is a `uint8_t` holding `sizeof(USBStringDescriptor) + strlen`.
The `realloc` of `firstStringDescriptor` keeps the old `wLANGID` prefix up to
the new size and the (never-written) header bytes. -/
def addStringDescriptor (s : DescriptorState) (descriptorString : String) :
    Nat × DescriptorState :=
  let newIndex := s.numStringDescriptors
  let count := (newIndex + 1) % 256
  let sLen := descriptorString.utf8ByteSize
  let sd : USBStringDescriptor :=
    { bLength := (sizeofUSBStringDescriptor + sLen) % 256
      bDescriptorType := USBStringDescriptorType
      bString := descriptorString }
  let olds := s.stringDescriptors.getD []
  let fsdOld := s.firstStringDescriptor.getD ⟨none, none, []⟩
  let fsd : USBFirstStringDescriptor :=
    { fsdOld with wLANGID := fsdOld.wLANGID.take newIndex ++ [USB_LANGID_ENGLISH_US] }
  ((newIndex + 1) % 256,
   { s with numStringDescriptors := count
            stringDescriptors := some (olds.take newIndex ++ [sd])
            firstStringDescriptor := some fsd })

/-- Result of `usb_get_string_descriptor`: index 0 returns the
language-ID descriptor pointer (cast), any other index reads
`stringDescriptors[index - 1]` (`none` models the out-of-bounds read). -/
inductive USBStringDescriptorResult where
  | langIDs (d : USBFirstStringDescriptor)
  | strD (d : Option USBStringDescriptor)
deriving DecidableEq

/-- `usb_get_string_descriptor` (usb.c lines 341-347). -/
def usb_get_string_descriptor (s : DescriptorState) (index : Nat) :
    USBStringDescriptorResult :=
  if index = 0 then
    .langIDs (s.firstStringDescriptor.getD ⟨none, none, []⟩)
  else
    .strD ((s.stringDescriptors.getD []).get? (index - 1))

/-- `releaseStringDescriptors` (usb.c lines 349-364): frees every interned
entry and the array, resets the count.  `firstStringDescriptor` is left
untouched.  An early return when the array pointer is `NULL`. -/
def releaseStringDescriptors (s : DescriptorState) : DescriptorState :=
  match s.stringDescriptors with
  | none => s
  | some _ => { s with numStringDescriptors := 0, stringDescriptors := none }

/-- `packetsizeFromSpeed` (usb.c lines 366-378): a `uint16_t` switch on the
negotiated speed; the `default` arm is `return -1`, which the return type
wraps to 65535. -/
def packetsizeFromSpeed (speed_id : Nat) : Nat :=
  if speed_id = USB_HIGHSPEED then 512
  else if speed_id = USB_FULLSPEED ∨ speed_id = USB_FULLSPEED_48_MHZ then 64
  else if speed_id = USB_LOWSPEED then 32
  else 65535

/-- `addConfiguration` (usb.c lines 260-275): appends a configuration slot,
increments the device descriptor's `uint8_t` configuration count, and fills
the new slot's descriptor.  `bmAttributes` is bit 7 set, `selfPowered` in
bit 6, `remoteWakeup` in bit 5; `bMaxPower` is `maxPower / 2` truncated to a
`uint8_t`.  The new slot's `interfaces` pointer is not written by the C code
(see `USBConfiguration`). -/
def addConfiguration (s : DescriptorState) (bConfigurationValue iConfiguration
    selfPowered remoteWakeup maxPower : Nat) : Nat × DescriptorState :=
  let newIndex := s.deviceDescriptor.bNumConfigurations
  let count := (newIndex + 1) % 256
  let olds := s.configurations.getD []
  let cfg : USBConfiguration :=
    { descriptor :=
        { bLength := sizeofUSBConfigurationDescriptor
          bDescriptorType := USBConfigurationDescriptorType
          wTotalLength := 0
          bNumInterfaces := 0
          bConfigurationValue := bConfigurationValue
          iConfiguration := iConfiguration
          bmAttributes := (1 <<< 7) ||| ((selfPowered &&& 1) <<< 6) ||| ((remoteWakeup &&& 1) <<< 5)
          bMaxPower := (maxPower / 2) % 256 }
      interfaces := none }
  (newIndex,
   { s with deviceDescriptor := { s.deviceDescriptor with bNumConfigurations := count }
            configurations := some (olds.take newIndex ++ [cfg]) })

/-- `endConfiguration` (usb.c lines 277-284): recomputes `wTotalLength`
(a `uint16_t`) of the configuration at `cfgIdx` — but the loop bound reads
`configurations->descriptor.bNumInterfaces`, i.e. the interface count of the
FIRST configuration in the device-wide array, while the summed endpoint
counts come from the finalized configuration's own interfaces. -/
def endConfiguration (s : DescriptorState) (cfgIdx : Nat) : DescriptorState :=
  match s.configurations with
  | none => s
  | some cfgs =>
    let cfg := cfgs.getD cfgIdx default
    let firstCount := (cfgs.getD 0 default).descriptor.bNumInterfaces
    let total := (List.range firstCount).foldl
      (fun acc i =>
        (acc + sizeofUSBInterfaceDescriptor +
          ((cfg.interfaces.getD []).getD i default).descriptor.bNumEndpoints *
            sizeofUSBEndpointDescriptor) % 65536)
      sizeofUSBConfigurationDescriptor
    let cfg2 := { cfg with descriptor := { cfg.descriptor with wTotalLength := total } }
    { s with configurations := some (cfgs.set cfgIdx cfg2) }

/-- `addInterfaceDescriptor` (usb.c lines 286-303): appends an interface to
the given configuration and returns its index (the C code returns a pointer
to the new slot).  The interface count is a `uint8_t`. -/
def addInterfaceDescriptor (cfg : USBConfiguration) (bInterfaceNumber
    bAlternateSetting bInterfaceClass bInterfaceSubClass bInterfaceProtocol
    iInterface : Nat) : Nat × USBConfiguration :=
  let newIndex := cfg.descriptor.bNumInterfaces
  let count := (newIndex + 1) % 256
  let olds := cfg.interfaces.getD []
  let iface : USBInterface :=
    { descriptor :=
        { bLength := sizeofUSBInterfaceDescriptor
          bDescriptorType := USBInterfaceDescriptorType
          bInterfaceNumber := bInterfaceNumber
          bAlternateSetting := bAlternateSetting
          bNumEndpoints := 0
          bInterfaceClass := bInterfaceClass
          bInterfaceSubClass := bInterfaceSubClass
          bInterfaceProtocol := bInterfaceProtocol
          iInterface := iInterface }
      endpointDescriptors := [] }
  (newIndex,
   { cfg with descriptor := { cfg.descriptor with bNumInterfaces := count }
              interfaces := some (olds.take newIndex ++ [iface]) })

/-- `addEndpointDescriptor` (usb.c lines 305-321): rejects `direction > 2`
with `return -1` (wrapped to 255 by the `uint8_t` return type), otherwise
appends an endpoint descriptor.  `bEndpointAddress` is
`(endpoint & 0x3) | ((direction & 0x1) << 7)`. -/
def addEndpointDescriptor (iface : USBInterface) (endpoint direction
    transferType syncType usageType wMaxPacketSize bInterval : Nat) :
    Nat × USBInterface :=
  if direction > 2 then (255, iface)
  else
    let newIndex := iface.descriptor.bNumEndpoints
    let count := (newIndex + 1) % 256
    let epd : USBEndpointDescriptor :=
      { bLength := sizeofUSBEndpointDescriptor
        bDescriptorType := USBEndpointDescriptorType
        bEndpointAddress := (endpoint &&& 0x3) ||| ((direction &&& 0x1) <<< 7)
        bmAttributes := (transferType &&& 0x3) ||| ((syncType &&& 0x3) <<< 2) |||
          ((usageType &&& 0x3) <<< 4)
        wMaxPacketSize := wMaxPacketSize % 65536
        bInterval := bInterval % 256 }
    (newIndex,
     { iface with descriptor := { iface.descriptor with bNumEndpoints := count }
                  endpointDescriptors :=
                    iface.endpointDescriptors.take newIndex ++ [epd] })

/-- `releaseConfigurations` (usb.c lines 241-258): frees the whole
configuration tree, zeroes the device descriptor's configuration count and
`NULL`s the pointer; an early return when the pointer is already `NULL`. -/
def releaseConfigurations (s : DescriptorState) : DescriptorState :=
  match s.configurations with
  | none => s
  | some _ =>
    { s with deviceDescriptor := { s.deviceDescriptor with bNumConfigurations := 0 }
             configurations := none }

/-- `usb_get_device_descriptor` (usb.c lines 199-220): on first call
(configurations pointer still `NULL`) fills the device-descriptor singleton,
interning the manufacturer, product and serial strings in order, then adds
the single configuration (whose `iConfiguration` string is interned as the
call's argument). -/
def usb_get_device_descriptor (s : DescriptorState) :
    USBDeviceDescriptor × DescriptorState :=
  match s.configurations with
  | some _ => (s.deviceDescriptor, s)
  | none =>
    let (iManu, s1) := addStringDescriptor s "Apple Inc."
    let (iProd, s2) := addStringDescriptor s1 "Apple Mobile Device (OpenIBoot Mode)"
    let (iSer, s3) := addStringDescriptor s2 ""
    let dd : USBDeviceDescriptor :=
      { bLength := sizeofUSBDeviceDescriptor
        bDescriptorType := USBDeviceDescriptorType
        bcdUSB := USB_2_0
        bDeviceClass := 0
        bDeviceSubClass := 0
        bDeviceProtocol := 0
        bMaxPacketSize := USB_MAX_PACKETSIZE
        idVendor := VENDOR_APPLE
        idProduct := PRODUCT_IPHONE
        bcdDevice := DEVICE_IPHONE
        iManufacturer := iManu
        iProduct := iProd
        iSerialNumber := iSer
        bNumConfigurations := 0 }
    let s4 := { s3 with deviceDescriptor := dd }
    let (iConf, s5) := addStringDescriptor s4 "OpenIBoot Mode Configuration"
    let (_, s6) := addConfiguration s5 1 iConf 0 0 500
    (s6.deviceDescriptor, s6)

/-- `usb_get_configuration_descriptor` (usb.c lines 222-233): for index 0
with no interfaces yet, synthesizes the default interface ("IF0") with one IN
and one OUT bulk endpoint (number 1) whose packet size comes from
`packetsizeFromSpeed`, then finalizes configuration 0.  Returns the
descriptor of `configurations[index]`; `none` models the undefined read when
the pointer is `NULL` or the index is out of range (a caller contract
violation per the spec). -/
def usb_get_configuration_descriptor (s : DescriptorState) (index speed_id : Nat) :
    Option (USBConfigurationDescriptor × DescriptorState) :=
  match s.configurations with
  | none => none
  | some cfgs =>
    let s2 :=
      if index = 0 ∧ (cfgs.getD 0 default).interfaces = none then
        let (iIF0, sA) := addStringDescriptor s "IF0"
        let cfg0 := (sA.configurations.getD []).getD 0 default
        let (_, cfg1) := addInterfaceDescriptor cfg0 0 0 OPENIBOOT_INTERFACE_CLASS
          OPENIBOOT_INTERFACE_SUBCLASS OPENIBOOT_INTERFACE_PROTOCOL iIF0
        let iface0 := (cfg1.interfaces.getD []).getD 0 default
        let (_, ifaceA) := addEndpointDescriptor iface0 1 USBIn USBBulk
          USBNoSynchronization USBDataEndpoint (packetsizeFromSpeed speed_id) 0
        let (_, ifaceB) := addEndpointDescriptor ifaceA 1 USBOut USBBulk
          USBNoSynchronization USBDataEndpoint (packetsizeFromSpeed speed_id) 0
        let newIfaces := (cfg1.interfaces.getD []).set 0 ifaceB
        let cfg2 := { cfg1 with interfaces := some newIfaces }
        let newCfgs := (sA.configurations.getD []).set 0 cfg2
        let sB := { sA with configurations := some newCfgs }
        endConfiguration sB 0
      else s
    match s2.configurations with
    | none => none
    | some cfgs2 =>
      if index < cfgs2.length then
        some ((cfgs2.getD index default).descriptor, s2)
      else none

/-- Modelled from the spec: the controller lifecycle states from the missing
usb.h (`USBStart`, `USBPowered`, `USBConfigured`, plus the implicit initial
"down" value the zeroed static starts in, taken as `USBStart`). -/
inductive USBState where
  | USBStart
  | USBPowered
  | USBConfigured
deriving DecidableEq, Inhabited

/-- Modelled from the spec: `USB_NUM_ENDPOINTS`, the fixed physical endpoint
count from the missing hardware header.  The claims quantify relative to this
bound, so only its fixedness matters. -/
def USB_NUM_ENDPOINTS : Nat := 6

/-- Modelled from the spec: the hardware's per-endpoint direction capability
table (the `USB_EP_DIRECTION(i)` macro over the missing header's mask),
"fixed at controller-bring-up time" per the spec; a representative fixed
table with a bidirectional control endpoint 0. -/
def hardwareEndpointDirections : List Nat :=
  [USBBiDir, USBIn, USBOut, USBIn, USBOut, USBBiDir]

/-- `USBEndpointHandlerInfo` from usb.h: a handler function pointer and its
opaque token, both modelled as opaque numeric identifiers (`0` is the
`NULL`/zero pattern `memset` leaves). -/
structure USBEndpointHandlerInfo where
  handler : Nat
  token : Nat
deriving DecidableEq, Inhabited

/-- `USBEndpointBidirHandlerInfo` from usb.h: the IN and OUT handler slots of
one physical endpoint (the C fields are named `in` and `out`). -/
structure USBEndpointBidirHandlerInfo where
  inInfo : USBEndpointHandlerInfo
  outInfo : USBEndpointHandlerInfo
deriving DecidableEq, Inhabited

/-- The all-zero handler pair `memset(endpoint_handlers, 0, ...)` produces. -/
def zeroBidirHandlerInfo : USBEndpointBidirHandlerInfo :=
  ⟨⟨0, 0⟩, ⟨0, 0⟩⟩

/-- Symbolic register names for the opaque hardware register interface (the
spec treats the register layout as an external collaborator; only which
register is written, in which order, is recorded). -/
inductive RegName where
  | DCTL | USB_ONOFF | OPHYPWR | OPHYCLK | ORSTCON | GRSTCTL
  | GINTMSK | DIEPMSK | DOEPMSK | GAHBCFG | USB_UNKNOWNREG1 | DCFG
  | GRXFSIZ | GNPTXFSIZ | DAINTMSK | GOTGCTL
  | inEPInterrupt (i : Nat) | outEPInterrupt (i : Nat)
  | inEPControl (i : Nat) | outEPControl (i : Nat)
deriving DecidableEq

/-- One call to an external hardware collaborator (spec section 6): power
rail control, clock gating, microsecond delay, a register write, a spin-wait
on a register, interrupt-vector setup, or a buffer allocation.  Register
values and delay durations are opaque collaborator data (they come from the
missing hardware headers and from hardware reads), so the trace records the
call and its target, which is what the no-side-effects claims quantify
over. -/
inductive HWEffect where
  | powerCtrl (enable : Bool)
  | clockGateSwitch (gate : Nat) (enable : Bool)
  | udelay
  | setReg (r : RegName)
  | spinWait (r : RegName)
  | interruptInstall
  | interruptEnable
  | allocBuffer
deriving DecidableEq

/-- Modelled from the spec: clock gate identifiers from the missing header
(`USB_OTGCLOCKGATE`, `USB_PHYCLOCKGATE`, `EDRAM_CLOCKGATE`). -/
def USB_OTGCLOCKGATE : Nat := 0

/-- Modelled from the spec: PHY clock gate identifier. -/
def USB_PHYCLOCKGATE : Nat := 1

/-- Modelled from the spec: EDRAM clock gate identifier. -/
def EDRAM_CLOCKGATE : Nat := 2

/-- The whole of usb.c's global state: the `usb_inited` guard, the lifecycle
state, the two fixed per-endpoint tables, the descriptor registry, the two
lazily allocated transfer buffers, and the trace of external collaborator
calls made so far. -/
structure DriverState where
  usb_inited : Bool
  usb_state : USBState
  endpoint_directions : List Nat
  endpoint_handlers : List USBEndpointBidirHandlerInfo
  registry : DescriptorState
  inBufferAllocated : Bool
  outBufferAllocated : Bool
  effects : List HWEffect
deriving DecidableEq

/-- The per-endpoint interrupt-register writes of the two identical loops in
`usb_setup` (usb.c lines 132-137 and 168-173): for each endpoint, the IN then
the OUT interrupt register. -/
def epInterruptWrites : List HWEffect :=
  (List.range USB_NUM_ENDPOINTS).flatMap
    (fun i => [.setReg (.inEPInterrupt i), .setReg (.outEPInterrupt i)])

/-- The ordered collaborator-call trace of the non-guarded body of
`usb_setup` (usb.c lines 58-187), following the source line by line; the two
buffer allocations are conditional on the buffers not being allocated yet. -/
def usbSetupTrace (inAlloc outAlloc : Bool) : List HWEffect :=
  [.powerCtrl true, .udelay,
   .clockGateSwitch USB_OTGCLOCKGATE true,
   .clockGateSwitch USB_PHYCLOCKGATE true,
   .clockGateSwitch EDRAM_CLOCKGATE true,
   .setReg .DCTL, .udelay,
   .setReg .USB_ONOFF, .udelay,
   .setReg .OPHYPWR, .udelay,
   .setReg .OPHYCLK,
   .setReg .ORSTCON, .udelay, .setReg .ORSTCON, .udelay,
   .setReg .GRSTCTL, .spinWait .GRSTCTL, .spinWait .GRSTCTL, .udelay,
   .setReg .DCTL, .udelay,
   .setReg (.inEPInterrupt USB_NUM_ENDPOINTS),
   .setReg (.outEPInterrupt USB_NUM_ENDPOINTS)] ++
  epInterruptWrites ++
  [.setReg .GINTMSK, .setReg .DIEPMSK, .setReg .DOEPMSK,
   .interruptInstall, .interruptEnable] ++
  (if inAlloc then [] else [.allocBuffer]) ++
  (if outAlloc then [] else [.allocBuffer]) ++
  [.setReg .GAHBCFG, .setReg .USB_UNKNOWNREG1, .setReg .DCFG, .setReg .DCFG,
   .setReg (.inEPControl 0), .setReg (.outEPControl 0),
   .setReg .GRXFSIZ, .setReg .GNPTXFSIZ] ++
  epInterruptWrites ++
  [.setReg .GINTMSK, .setReg .DAINTMSK, .setReg .DOEPMSK, .setReg .DIEPMSK,
   .setReg .DIEPMSK,
   .setReg (.inEPInterrupt 0), .setReg (.outEPInterrupt 0),
   .setReg .DCTL, .udelay, .setReg .GOTGCTL]

/-- `usb_setup` (usb.c lines 51-193): if the `usb_inited` guard is set,
return 0 at once with no effect; otherwise run the whole bring-up — fill the
direction table from the hardware capability, zero the handler table, emit
the hardware sequence, reset the descriptor registry, allocate the buffers if
needed, end in state `USBPowered` with the guard set — and return 0. -/
def usb_setup (s : DriverState) : Int × DriverState :=
  if s.usb_inited then (0, s)
  else
    (0, { usb_inited := true
          usb_state := .USBPowered
          endpoint_directions := hardwareEndpointDirections
          endpoint_handlers := List.replicate USB_NUM_ENDPOINTS zeroBidirHandlerInfo
          registry := initializeDescriptors s.registry
          inBufferAllocated := true
          outBufferAllocated := true
          effects := s.effects ++ usbSetupTrace s.inBufferAllocated s.outBufferAllocated })

/-- The ordered collaborator-call trace of `usb_shutdown` (usb.c lines
402-417): defensive power/clock re-enable, link and PHY shutdown writes, a
settle delay, then clock and power disable. -/
def usbShutdownTrace : List HWEffect :=
  [.powerCtrl true,
   .clockGateSwitch USB_OTGCLOCKGATE true,
   .clockGateSwitch USB_PHYCLOCKGATE true,
   .setReg .USB_ONOFF, .setReg .OPHYPWR, .setReg .ORSTCON, .udelay,
   .clockGateSwitch USB_OTGCLOCKGATE false,
   .clockGateSwitch USB_PHYCLOCKGATE false,
   .powerCtrl false]

/-- `usb_shutdown` (usb.c lines 402-423): emits the hardware shutdown
sequence, releases the configurations and then the string descriptors, and
returns 0.  It writes neither `usb_inited`, nor `usb_state`, nor the
endpoint direction/handler tables, nor the buffer pointers. -/
def usb_shutdown (s : DriverState) : Int × DriverState :=
  (0, { s with registry := releaseStringDescriptors (releaseConfigurations s.registry)
               effects := s.effects ++ usbShutdownTrace })

/-- `usb_install_ep_handler` (usb.c lines 380-400): rejects an endpoint
number at or beyond `USB_NUM_ENDPOINTS`, rejects a direction the endpoint's
fixed capability does not cover (unless the capability is bidirectional),
stores the handler/token pair in the IN or OUT slot, and rejects any
direction that is neither IN nor OUT. -/
def usb_install_ep_handler (s : DriverState) (endpoint direction handler token : Nat) :
    Int × DriverState :=
  if USB_NUM_ENDPOINTS ≤ endpoint then (-1, s)
  else
    if s.endpoint_directions.getD endpoint 0 ≠ direction ∧
       s.endpoint_directions.getD endpoint 0 ≠ USBBiDir then (-1, s)
    else if direction = USBIn then
      let old := s.endpoint_handlers.getD endpoint default
      let upd := { old with inInfo := ⟨handler, token⟩ }
      (0, { s with endpoint_handlers := s.endpoint_handlers.set endpoint upd })
    else if direction = USBOut then
      let old := s.endpoint_handlers.getD endpoint default
      let upd := { old with outInfo := ⟨handler, token⟩ }
      (0, { s with endpoint_handlers := s.endpoint_handlers.set endpoint upd })
    else (-1, s)

/-! ## Helper accessors shared by the claim theorems -/

/-- The configuration record at index `i` of the registry's array. -/
def configAt (s : DescriptorState) (i : Nat) : USBConfiguration :=
  (s.configurations.getD []).getD i default

/-- The spec's words (section 3 invariant): a finalized configuration's
total length must equal its own descriptor size plus, for every contained
interface, the interface descriptor size plus that interface's endpoint
count times the endpoint descriptor size.  Stated separately from
`endConfiguration` so the two can be compared. -/
def specTotalLength (cfg : USBConfiguration) : Nat :=
  sizeofUSBConfigurationDescriptor +
    ((cfg.interfaces.getD []).foldl
      (fun acc iface => acc + sizeofUSBInterfaceDescriptor +
        iface.descriptor.bNumEndpoints * sizeofUSBEndpointDescriptor) 0)

/-- The `wMaxPacketSize` fields of all endpoints of all interfaces of the
configuration at `cfgIdx`, in order. -/
def endpointPacketSizes (s : DescriptorState) (cfgIdx : Nat) : List Nat :=
  ((configAt s cfgIdx).interfaces.getD []).flatMap
    (fun iface => iface.endpointDescriptors.map (fun e => e.wMaxPacketSize))

/-! ## Claim theorems -/

/-- The C1 failing input, built with the registry's own growth functions:
two configurations (the first left with no interfaces) and one interface
(with no endpoints) added to the second, written back into the array slot the
C code mutates through its pointer. -/
def c1TwoConfigState : DescriptorState :=
  let r1 := (addConfiguration emptyDescriptorState 1 0 0 0 500).snd
  let r2 := (addConfiguration r1 2 0 0 0 500).snd
  let cfgB2 := (addInterfaceDescriptor (configAt r2 1) 0 0 0 0 0 0).snd
  { r2 with configurations := some ((r2.configurations.getD []).set 1 cfgB2) }

/-- C1: the claim says finalization makes `wTotalLength` equal the
configuration's own descriptor size plus the per-interface sums "for every
configuration of the device, not only the first" — but `endConfiguration`
takes its loop bound from `configurations->descriptor.bNumInterfaces`, the
FIRST configuration of the device-wide array.  Evaluating the code at the
failing input: two configurations, the first with no interfaces, one
interface added to the second, then finalize the second — the code stores
9 (just the configuration descriptor size) where the claimed sum is 18. -/
theorem C1_endConfiguration_uses_first_configuration_count :
    (configAt (endConfiguration c1TwoConfigState 1) 1).descriptor.wTotalLength = 9 ∧
    specTotalLength (configAt (endConfiguration c1TwoConfigState 1) 1) = 18 := by
  decide

/-- The result of the first `usb_get_device_descriptor` call on the freshly
initialized registry: the built device descriptor and the registry state
holding it. -/
def firstDeviceBuild : USBDeviceDescriptor × DescriptorState :=
  usb_get_device_descriptor emptyDescriptorState

/-- C2: the speed-to-packet-size table is 512/64/32 as claimed, but an
unrecognized speed identifier is NOT surfaced as an error: `packetsizeFromSpeed`
returns `(uint16_t)-1 = 65535` and `usb_get_configuration_descriptor`
proceeds, synthesizing both default endpoints with `wMaxPacketSize = 65535`
and returning the descriptor normally — exactly the "silently proceeding
with a wrapped packet size" the claim rules out. -/
theorem C2_invalid_speed_not_surfaced :
    packetsizeFromSpeed USB_HIGHSPEED = 512 ∧
    packetsizeFromSpeed USB_FULLSPEED = 64 ∧
    packetsizeFromSpeed USB_FULLSPEED_48_MHZ = 64 ∧
    packetsizeFromSpeed USB_LOWSPEED = 32 ∧
    packetsizeFromSpeed 42 = 65535 ∧
    (usb_get_configuration_descriptor firstDeviceBuild.snd 0 USB_HIGHSPEED).map
      (fun p => endpointPacketSizes p.snd 0) = some [512, 512] ∧
    (usb_get_configuration_descriptor firstDeviceBuild.snd 0 42).map
      (fun p => endpointPacketSizes p.snd 0) = some [65535, 65535] := by
  decide

/-- The string table after interning the first claim string. -/
def c5OneString : DescriptorState :=
  (addStringDescriptor emptyDescriptorState "Apple Inc.").snd

/-- The string table after interning both claim strings in order. -/
def c5TwoStrings : DescriptorState :=
  (addStringDescriptor c5OneString "OpenIBoot Mode Configuration").snd

/-- C5: interning returns successive 1-based indices and `get (i ≥ 1)`
returns the interned entries with `bLength` = header size + text length as
claimed — but the index-0 language-ID descriptor's `bLength` (and
`bDescriptorType`) are never assigned anywhere in usb.c (only the `wLANGID`
slots are written), so the header stays uninitialized (`none`) instead of
the claimed `2 + 2 × count = 6`. -/
theorem C5_string_table_langid_header_unwritten :
    (addStringDescriptor emptyDescriptorState "Apple Inc.").fst = 1 ∧
    (addStringDescriptor c5OneString "OpenIBoot Mode Configuration").fst = 2 ∧
    usb_get_string_descriptor c5TwoStrings 0 =
      .langIDs ⟨none, none, [USB_LANGID_ENGLISH_US, USB_LANGID_ENGLISH_US]⟩ ∧
    2 + 2 * c5TwoStrings.numStringDescriptors = 6 ∧
    usb_get_string_descriptor c5TwoStrings 1 =
      .strD (some ⟨12, USBStringDescriptorType, "Apple Inc."⟩) ∧
    usb_get_string_descriptor c5TwoStrings 2 =
      .strD (some ⟨30, USBStringDescriptorType, "OpenIBoot Mode Configuration"⟩) := by
  decide

/-- C7 counterexample: a call with the bidirectional direction value is NOT
rejected — `addEndpointDescriptor` only rejects `direction > 2`, so
`USBBiDir = 2` passes the guard, the call returns index 0 (not the wrapped
invalid-argument value 255) and an endpoint descriptor is appended, with
direction bit `2 & 1 = 0`. -/
theorem C7_counterexample_bidir_accepted :
    (addEndpointDescriptor default 1 USBBiDir USBBulk USBNoSynchronization
      USBDataEndpoint 64 0).fst = 0 ∧
    (addEndpointDescriptor default 1 USBBiDir USBBulk USBNoSynchronization
      USBDataEndpoint 64 0).snd.endpointDescriptors = [⟨7, 5, 1, 2, 64, 0⟩] := by
  decide

/-- C7 amended: only direction values strictly greater than 2 are rejected
(returning `(uint8_t)-1 = 255` with the interface unchanged); the
bidirectional value 2 is accepted like IN and OUT. -/
theorem C7_amended_reject_only_gt2 (iface : USBInterface)
    (endpoint direction transferType syncType usageType w b : Nat)
    (hd : 2 < direction) :
    addEndpointDescriptor iface endpoint direction transferType syncType
      usageType w b = (255, iface) := by
  unfold addEndpointDescriptor
  rw [if_pos hd]

/-- C7 amended, witness at direction = 3. -/
theorem C7_amended_reject_only_gt2_witness :
    addEndpointDescriptor default 1 3 USBBulk USBNoSynchronization
      USBDataEndpoint 64 0 = (255, default) :=
  C7_amended_reject_only_gt2 default 1 3 USBBulk USBNoSynchronization
    USBDataEndpoint 64 0 (by decide)

/-- C8: releasing the whole registry (`releaseConfigurations` then
`releaseStringDescriptors`, as `usb_shutdown` does) and querying the device
descriptor again rebuilds a descriptor tree identical to the one the first
`usb_get_device_descriptor` built — the returned descriptor, the whole
registry state, the configuration count (1) and the manufacturer string
index (1) all match the first build. -/
theorem C8_release_then_rebuild_identical :
    (usb_get_configuration_descriptor firstDeviceBuild.snd 0 USB_HIGHSPEED).map
      (fun q => usb_get_device_descriptor
        (releaseStringDescriptors (releaseConfigurations q.snd))) =
      some firstDeviceBuild ∧
    firstDeviceBuild.fst.iManufacturer = 1 ∧
    firstDeviceBuild.fst.bNumConfigurations = 1 := by
  decide

set_option maxRecDepth 4096 in
/-- C10: every accepted `addEndpointDescriptor` call (direction at most 2,
endpoint a `uint8_t`) returns the fresh index (so endpoint numbers of 4 or
more are not rejected) and stores `bEndpointAddress` = the endpoint number
modulo 4 in the low bits plus the direction's low bit in bit 7 — endpoint
numbers of 4 and above are silently aliased modulo 4. -/
theorem C10_endpoint_address_aliased_mod4 (iface : USBInterface)
    (endpoint direction transferType syncType usageType w b : Nat)
    (he : endpoint < 256) (hd : direction ≤ 2) :
    (addEndpointDescriptor iface endpoint direction transferType syncType
      usageType w b).fst = iface.descriptor.bNumEndpoints ∧
    ((addEndpointDescriptor iface endpoint direction transferType syncType
      usageType w b).snd.endpointDescriptors.getLast?).map
        (fun e => e.bEndpointAddress) =
      some (endpoint % 4 + 128 * (direction % 2)) := by
  unfold addEndpointDescriptor
  rw [if_neg (by omega)]
  refine ⟨rfl, ?_⟩
  have key : ∀ e, e < 256 → (e &&& 3) ||| ((direction &&& 1) <<< 7)
      = e % 4 + 128 * (direction % 2) := by
    interval_cases direction <;> decide
  simp only [List.getLast?_concat, Option.map_some']
  exact congrArg some (key endpoint he)

/-- C10 witness: endpoint number 5 with an IN direction is accepted and
stored as address `5 % 4 + 128 = 129`. -/
theorem C10_endpoint_address_aliased_mod4_witness :
    (addEndpointDescriptor default 5 USBIn USBBulk USBNoSynchronization
      USBDataEndpoint 512 0).fst = (default : USBInterface).descriptor.bNumEndpoints ∧
    ((addEndpointDescriptor default 5 USBIn USBBulk USBNoSynchronization
      USBDataEndpoint 512 0).snd.endpointDescriptors.getLast?).map
        (fun e => e.bEndpointAddress) = some (5 % 4 + 128 * (USBIn % 2)) :=
  C10_endpoint_address_aliased_mod4 default 5 USBIn USBBulk
    USBNoSynchronization USBDataEndpoint 512 0 (by decide) (by decide)

/-- A concrete post-bring-up driver state used by the witnesses: the guard is
set, the tables have their bring-up contents, the registry is empty. -/
def exampleDriverState : DriverState :=
  { usb_inited := true
    usb_state := .USBPowered
    endpoint_directions := hardwareEndpointDirections
    endpoint_handlers := List.replicate USB_NUM_ENDPOINTS zeroBidirHandlerInfo
    registry := emptyDescriptorState
    inBufferAllocated := true
    outBufferAllocated := true
    effects := [] }

/-- C6: calling `usb_setup` a second time without an intervening shutdown is
a no-op that returns 0 and leaves the entire driver state — including the
trace of hardware register writes, clock/power and delay collaborator
calls — exactly as the first call left it. -/
theorem C6_second_setup_is_noop (s : DriverState) :
    usb_setup (usb_setup s).snd = (0, (usb_setup s).snd) := by
  by_cases h : s.usb_inited <;> simp [usb_setup, h]

/-- C3: for every endpoint inside the physical range whose fixed capability
equals the requested direction or is bidirectional, and a direction that is
IN or OUT, `usb_install_ep_handler` returns 0 and the handler-table entry
for that (endpoint, direction) pair afterwards holds exactly the
last-installed handler/token pair, whatever was installed before. -/
theorem C3_install_matching_succeeds (s : DriverState)
    (endpoint direction handler token : Nat)
    (hep : endpoint < USB_NUM_ENDPOINTS)
    (hlen : s.endpoint_handlers.length = USB_NUM_ENDPOINTS)
    (hdir : direction = USBIn ∨ direction = USBOut)
    (hcap : s.endpoint_directions.getD endpoint 0 = direction ∨
            s.endpoint_directions.getD endpoint 0 = USBBiDir) :
    (usb_install_ep_handler s endpoint direction handler token).fst = 0 ∧
    ((usb_install_ep_handler s endpoint direction handler token).snd.endpoint_handlers.getD
        endpoint default) =
      (if direction = USBIn then
        { s.endpoint_handlers.getD endpoint default with inInfo := ⟨handler, token⟩ }
       else
        { s.endpoint_handlers.getD endpoint default with outInfo := ⟨handler, token⟩ }) := by
  have hep2 : endpoint < s.endpoint_handlers.length := by omega
  unfold usb_install_ep_handler
  have hg : ¬(s.endpoint_directions.getD endpoint 0 ≠ direction ∧
              s.endpoint_directions.getD endpoint 0 ≠ USBBiDir) := by
    rcases hcap with h | h
    · exact fun hc => hc.1 h
    · exact fun hc => hc.2 h
  rw [if_neg (by omega), if_neg hg]
  rcases hdir with hIn | hOut <;> subst_vars <;>
    simp [USBIn, USBOut, List.getD, List.getElem?_set_eq_of_lt _ hep2]

/-- C3 witness: installing an IN handler on endpoint 1 (capability IN)
succeeds and the slot then holds handler 7 with token 9. -/
theorem C3_install_matching_succeeds_witness :
    (usb_install_ep_handler exampleDriverState 1 USBIn 7 9).fst = 0 ∧
    ((usb_install_ep_handler exampleDriverState 1 USBIn 7 9).snd.endpoint_handlers.getD
        1 default) = ⟨⟨7, 9⟩, ⟨0, 0⟩⟩ := by
  have h := C3_install_matching_succeeds exampleDriverState 1 USBIn 7 9
    (by decide) (by decide) (Or.inl rfl) (Or.inl (by decide))
  simpa using h

/-- C4: every install call with an endpoint outside the physical range, or a
direction that is neither IN nor OUT, or a direction the endpoint's fixed
capability does not cover (and the capability is not bidirectional), returns
-1 and leaves the whole driver state — in particular the handler table —
unchanged. -/
theorem C4_install_mismatch_rejected (s : DriverState)
    (endpoint direction handler token : Nat)
    (hrej : USB_NUM_ENDPOINTS ≤ endpoint ∨
            (direction ≠ USBIn ∧ direction ≠ USBOut) ∨
            (s.endpoint_directions.getD endpoint 0 ≠ direction ∧
             s.endpoint_directions.getD endpoint 0 ≠ USBBiDir)) :
    usb_install_ep_handler s endpoint direction handler token = (-1, s) := by
  unfold usb_install_ep_handler
  rcases hrej with h | ⟨h1, h2⟩ | ⟨h1, h2⟩ <;> split_ifs <;> simp_all

/-- C4 witness: endpoint 9 is outside the physical range, so installation is
rejected and the state is returned unchanged. -/
theorem C4_install_mismatch_rejected_witness :
    usb_install_ep_handler exampleDriverState 9 USBIn 7 9 =
      (-1, exampleDriverState) :=
  C4_install_mismatch_rejected exampleDriverState 9 USBIn 7 9
    (Or.inl (by decide))

/-- C9: `usb_shutdown` leaves the endpoint handler table and the
`usb_inited` guard untouched, so when the driver was up, a `usb_setup` call
made after the shutdown takes the idempotency path: it returns 0 and
performs no hardware re-initialization (the state, including the
collaborator-call trace, is exactly the post-shutdown state). -/
theorem C9_shutdown_keeps_guard_and_handlers (s : DriverState) :
    (usb_shutdown s).snd.endpoint_handlers = s.endpoint_handlers ∧
    (usb_shutdown s).snd.usb_inited = s.usb_inited ∧
    (s.usb_inited = true →
      usb_setup (usb_shutdown s).snd = (0, (usb_shutdown s).snd)) := by
  refine ⟨rfl, rfl, fun h => ?_⟩
  simp [usb_setup, usb_shutdown, h]

/-- C9 witness: from a concrete up state, shutdown preserves the handler
table and the guard, and the following `usb_setup` is a no-op. -/
theorem C9_shutdown_keeps_guard_and_handlers_witness :
    (usb_shutdown exampleDriverState).snd.endpoint_handlers =
      exampleDriverState.endpoint_handlers ∧
    (usb_shutdown exampleDriverState).snd.usb_inited =
      exampleDriverState.usb_inited ∧
    usb_setup (usb_shutdown exampleDriverState).snd =
      (0, (usb_shutdown exampleDriverState).snd) := by
  have h := C9_shutdown_keeps_guard_and_handlers exampleDriverState
  exact ⟨h.1, h.2.1, h.2.2 rfl⟩
